import Mathlib

/-!
Shallow embedding of the PyLiquid2EVM session/domain layer
(`pyliquid/liquid/operations.py`, `pyliquid/liquid/internals.py`,
`pyliquid/main.py`) and proofs about its specified behaviour.

JSON-decodable values exchanged with the node are modelled by `Val`;
Python exceptions and classified RPC failures by `Err`; the node's RPC
endpoint by an oracle `Node : RpcCall → Except Err Val`.  Each embedded
operation additionally reports the ordered list of RPC calls it issued,
so call-trace properties are statable.
-/

/-- A JSON-style value as decoded from the node or passed as an RPC
argument.  Python floats that denote monetary amounts are modelled as
rationals. -/
inductive Val where
  | vNull : Val
  | vBool (b : Bool) : Val
  | vNum (q : ℚ) : Val
  | vStr (s : String) : Val
  | vList (xs : List Val) : Val
  | vDict (fields : List (String × Val)) : Val

/-- Failure channel: Python exception classes raised by this layer plus
the classified RPC failure surfaced by the executor. -/
inductive Err where
  | rpc (code : Int) (msg : String) : Err
  | notImplemented (msg : String) : Err
  | runtime (msg : String) : Err
  | typeErr (msg : String) : Err
  | keyError (k : String) : Err
deriving DecidableEq, Repr

/-- One RPC invocation: method name and positional arguments, in order. -/
structure RpcCall where
  method : String
  args : List Val

/-- The node's RPC endpoint (the authenticated proxy's behaviour): a
deterministic oracle from a call to its decoded result or failure. -/
def Node : Type := RpcCall → Except Err Val

/-- Python `Wallet` object state (operations.py:12-30): the authenticated
proxy reference `_proxy` and the metadata record `_wallet`.  The getter
properties `proxy` and `wallet` are the projections.  Because
`_create_wallet` may store a bare address string, the metadata is a `Val`,
not necessarily a dictionary. -/
structure Wallet where
  proxy : Node
  wallet : Val

/-- Result of running one `Wallet` method: the Python return value (or
the raised exception), the RPC calls issued in order, and the state of
the `Wallet` object when the method finishes (`post`), which makes any
mutation of `self` explicit in the embedding. -/
structure MethodRes where
  res : Except Err Val
  calls : List RpcCall
  post : Wallet

/-- Modelled from the spec: the decorator `rpc_exec`
(`pyliquid/liquid/wrappers.py`, a module of this repository absent from
src/).  Per §4.1 the executor layer forwards the ordered positional
argument list to the target operation and passes the node's decoded
result through unchanged, surfacing node failures as classified errors;
since the body of `_wrapper_executor` "unpacks and unnests" `args[0]`,
`rpc_exec` hands the wrapped call its positional arguments nested as a
single tuple. -/
def rpc_exec {R : Type} (invoke : List (List Val) → R) (args : List Val) : R :=
  invoke [args]

/-- Body of `Wallet._wrapper_executor` (operations.py:66-88): with a
non-empty argument tuple it unnests `args[0]` into the instance
function; with an empty one it calls the function with no arguments. -/
def wrapper_body {R : Type} (f : List Val → R) : List (List Val) → R
  | [] => f []
  | a :: _ => f a

/-- `Wallet._wrapper_executor` applied to a bound proxy method `method`:
the `rpc_exec`-wrapped body invoking the node, together with the RPC
call it issues. -/
def Wallet._wrapper_executor (node : Node) (method : String) (args : List Val) :
    Except Err Val × List RpcCall :=
  rpc_exec (wrapper_body (fun sent => (node ⟨method, sent⟩, [⟨method, sent⟩]))) args

/-- `Wallet.list_wallets` (operations.py:137-146). -/
def Wallet.list_wallets (w : Wallet) : MethodRes :=
  let e := Wallet._wrapper_executor w.proxy "listwalletdir" []
  ⟨e.1, e.2, w⟩

/-- The `loadwallet` invocation shared by `Wallet.load_wallet` and the
`'l'` branch of `Wallet.__init__` (operations.py:148-162). -/
def loadwallet_exec (node : Node) (name : Val) : Except Err Val × List RpcCall :=
  Wallet._wrapper_executor node "loadwallet" [name]

/-- `Wallet.load_wallet` (operations.py:148-162); the name argument is a
`Val` because `__init__` may pass `None` through. -/
def Wallet.load_wallet (w : Wallet) (name : Val) : MethodRes :=
  let e := loadwallet_exec w.proxy name
  ⟨e.1, e.2, w⟩

/-- `Wallet.get_balance` (operations.py:164-173). -/
def Wallet.get_balance (w : Wallet) : MethodRes :=
  let e := Wallet._wrapper_executor w.proxy "getbalance" []
  ⟨e.1, e.2, w⟩

/-- `Wallet.get_address` (operations.py:175-184). -/
def Wallet.get_address (w : Wallet) : MethodRes :=
  let e := Wallet._wrapper_executor w.proxy "getaddress" []
  ⟨e.1, e.2, w⟩

/-- `Wallet.get_private_key` (operations.py:186-195). -/
def Wallet.get_private_key (w : Wallet) : MethodRes :=
  let e := Wallet._wrapper_executor w.proxy "dumpprivkey" []
  ⟨e.1, e.2, w⟩

/-- `Wallet.get_public_key` (operations.py:197-206). -/
def Wallet.get_public_key (w : Wallet) : MethodRes :=
  let e := Wallet._wrapper_executor w.proxy "getpubkey" []
  ⟨e.1, e.2, w⟩

/-- `Wallet.get_wallet_info` (operations.py:208-217). -/
def Wallet.get_wallet_info (w : Wallet) : MethodRes :=
  let e := Wallet._wrapper_executor w.proxy "getwalletinfo" []
  ⟨e.1, e.2, w⟩

/-- `Wallet.send_to_address` (operations.py:219-237). -/
def Wallet.send_to_address (w : Wallet) (address : String) (amount : ℚ) : MethodRes :=
  let e := Wallet._wrapper_executor w.proxy "sendtoaddress"
    [Val.vStr address, Val.vNum amount]
  ⟨e.1, e.2, w⟩

/-- Converts an optional Python string argument to the `Val` actually
passed to the node (`None` becomes JSON null). -/
def optStr : Option String → Val
  | none => Val.vNull
  | some s => Val.vStr s

/-- `Wallet._create_wallet` (operations.py:90-115).  `genLabel` is the
value `str(uuid4())` would produce, an input from the external stdlib
`uuid` collaborator; Python's `if not label` treats both `None` and the
empty string as absent. -/
def Wallet._create_wallet (node : Node) (genLabel : String) (address : Bool)
    (label : Option String) : Except Err Val × List RpcCall :=
  let lbl : String :=
    match label with
    | none => genLabel
    | some s => if s = "" then genLabel else s
  let e1 := Wallet._wrapper_executor node "createwallet"
    [Val.vStr lbl, Val.vBool false, Val.vBool false]
  match e1.1 with
  | .error err => (.error err, e1.2)
  | .ok creation =>
    if address then
      let e2 := Wallet._wrapper_executor node "getnewaddress" []
      match e2.1 with
      | .error err => (.error err, e1.2 ++ e2.2)
      | .ok output => (.ok output, e1.2 ++ e2.2)
    else
      (.ok creation, e1.2)

/-- `Wallet.__init__` (operations.py:27-50): stores `_proxy`, then fills
`_wallet` according to the mode — `'c'` creates via `_create_wallet`,
`'r'` stores an empty record, `'l'` loads via `loadwallet` with the
(possibly `None`) label, and any other mode raises
`NotImplementedError`. -/
def Wallet.init (proxy_service : Node) (mode : String) (wallet_label : Option String)
    (with_address : Bool) (genLabel : String) : Except Err Wallet × List RpcCall :=
  if mode = "c" then
    match Wallet._create_wallet proxy_service genLabel with_address wallet_label with
    | (.error e, tr) => (.error e, tr)
    | (.ok v, tr) => (.ok ⟨proxy_service, v⟩, tr)
  else if mode = "r" then
    (.ok ⟨proxy_service, Val.vDict []⟩, [])
  else if mode = "l" then
    let e := loadwallet_exec proxy_service (optStr wallet_label)
    match e.1 with
    | .error err => (.error err, e.2)
    | .ok v => (.ok ⟨proxy_service, v⟩, e.2)
  else
    (.error (Err.notImplemented "Provide a valid Wallet mode!"), [])

/-- Python call protocol for `Wallet(...)`: `proxy_service` is the only
required positional parameter of `Wallet.__init__` (operations.py:27-30),
so a call that omits it raises `TypeError` before the constructor body
runs and before any RPC call is issued. -/
def Wallet.callInit (proxy_service : Option Node) (mode : String)
    (wallet_label : Option String) (with_address : Bool) (genLabel : String) :
    Except Err Wallet × List RpcCall :=
  match proxy_service with
  | none =>
    (.error (Err.typeErr "__init__ missing 1 required positional argument: proxy_service"), [])
  | some p => Wallet.init p mode wallet_label with_address genLabel

/-- Python `Pool` object state (operations.py:240-263): the owning
wallet `_vault_wallet`. -/
structure Pool where
  vault_wallet : Wallet

/-- `Pool.__init__` (operations.py:252-263). -/
def Pool.init (input_wallet : Wallet) : Pool := ⟨input_wallet⟩

/-- Getter `vaul_wallet` (sic, operations.py:265-270). -/
def Pool.vaul_wallet (p : Pool) : Wallet := p.vault_wallet

/-- Result of one `Pool` method: return value, RPC calls, and the state
of the `Pool` object when the method finishes. -/
structure PoolRes where
  res : Except Err Val
  calls : List RpcCall
  post : Pool

/-- `Pool.issue_token` (operations.py:272-290): dispatches `issueasset`
through the owning wallet's executor and proxy, with `amount` and
`reissue` passed down exactly as supplied. -/
def Pool.issue_token (p : Pool) (amount reissue : Val) : PoolRes :=
  let e := Wallet._wrapper_executor p.vault_wallet.proxy "issueasset" [amount, reissue]
  ⟨e.1, e.2, p⟩

/-- Modelled from the spec: the `Service` class (`server.py`, a module of
this repository absent from src/).  §4.4: default construction attaches
to or starts the node and opens an authenticated Connection, which
`get_proxy` returns.  The Connection the default handshake yields is an
input to the embedding. -/
structure Service where
  proxy : Node

/-- Modelled from the spec: `Service.get_proxy` returns the Connection
held by the Service. -/
def Service.get_proxy (s : Service) : Node := s.proxy

/-- Modelled from the spec: the Session Registry's active-Service mapping
(the accessors `get_active_service`/`update_active_service` are imported
from `pyliquid/main.py` by internals.py but are absent from src/).
§3: Service→Connection entries are kept in registration order, most
recent last, and `update_active_service` appends an entry. -/
structure Registry where
  active : List (Service × Node)

/-- `_check_for_proxy` (internals.py:20-36).  `conn` is the Connection a
default `Service()` construction obtains.  Mirrors the source control
flow: with a non-empty registry it returns the most recently registered
Connection (`list(_temp.values())[-1]`); otherwise it constructs one
default Service, registers it, and recurses — but the source has no
`return` in front of the recursive call, so the registering branch
discards the retry's value, falls off the end of the function, and
yields `None`. -/
def _check_for_proxy (conn : Node) (reg : Registry) : Option Node × Registry :=
  match hm : reg.active with
  | e :: es => (some ((e :: es).getLast (List.cons_ne_nil e es)).2, reg)
  | [] =>
    let s : Service := ⟨conn⟩
    let reg' : Registry := ⟨reg.active ++ [(s, s.get_proxy)]⟩
    let inner := _check_for_proxy conn reg'
    (none, inner.2)
termination_by (if reg.active.isEmpty then 1 else 0)
decreasing_by simp [hm]

/-- Python subscript `d['k']` on a metadata value: key lookup on a
dictionary (`KeyError` when absent), `TypeError` on non-dictionary
metadata such as a bare address string. -/
def Val.subscript : Val → String → Except Err Val
  | .vDict fields, k =>
    match fields.find? (fun kv => kv.1 == k) with
    | some kv => .ok kv.2
    | none => .error (.keyError k)
  | _, k => .error (.typeErr ("value not subscriptable by " ++ k))

/-- Python `x == lbl` where `lbl` is a string: true exactly when `x` is
an equal string. -/
def pyEqStr (v : Val) (lbl : String) : Bool :=
  match v with
  | .vStr s => s == lbl
  | _ => false

/-- The `target_wallet` list comprehension in `get_labeled_wallet`
(internals.py:63-64): the session wallets whose metadata field `label`
equals the requested label, in session order; an exception raised while
filtering (missing key, non-record metadata) propagates. -/
def target_wallet : List Wallet → String → Except Err (List Wallet)
  | [], _ => .ok []
  | w :: ws, lbl =>
    match w.wallet.subscript "label" with
    | .error e => .error e
    | .ok v =>
      match target_wallet ws lbl with
      | .error e => .error e
      | .ok tl => .ok (if pyEqStr v lbl then w :: tl else tl)

/-- The `RuntimeError` raised by `get_labeled_wallet` when no session
wallet exists (internals.py:60-61). -/
def noWalletsLoadedErr : Err :=
  Err.runtime "No wallet instance have been loaded. Please load a wallet beforehand."

/-- The `TypeError` raised by `get_labeled_wallet` when no session wallet
carries the requested label (internals.py:69). -/
def labelNotFoundErr : Err :=
  Err.typeErr "The requested address has not been loaded."

/-- `get_labeled_wallet` (internals.py:53-69): with no session wallets it
raises `RuntimeError`; otherwise it filters by label and returns the
metadata of the last (most recently created) match, raising `TypeError`
when there is none. -/
def get_labeled_wallet (session_wallets : List Wallet) (requested_label : String) :
    Except Err Val :=
  if session_wallets.isEmpty then .error noWalletsLoadedErr
  else
    match target_wallet session_wallets requested_label with
    | .error e => .error e
    | .ok [] => .error labelNotFoundErr
    | .ok (t :: ts) => .ok ((t :: ts).getLast (List.cons_ne_nil t ts)).wallet

/-- `get_wallet` (internals.py:39-50), over the session wallet list and
registry (spec-modelled session accessors) and the Connection a fresh
default Service would obtain.  The source reuses the most recent session
wallet or builds `Wallet(_proxy, with_address=False)` (hence mode `'r'`),
then evaluates `_wallet.list_wallets()` WITHOUT returning it, so the
handler's own value is `None`; an exception raised underneath
propagates.  When `_check_for_proxy` yields `None`, the attribute access
`self.proxy.listwalletdir` on `None` inside `list_wallets` raises. -/
def get_wallet (session_wallets : List Wallet) (reg : Registry) (conn : Node) :
    Except Err (Option Val) × Registry :=
  match session_wallets.getLast? with
  | some w =>
    match w.list_wallets.res with
    | .error e => (.error e, reg)
    | .ok _ => (.ok none, reg)
  | none =>
    let r := _check_for_proxy conn reg
    match r.1 with
    | none =>
      (.error (Err.typeErr "AttributeError: NoneType object has no attribute listwalletdir"),
       r.2)
    | some p =>
      let w : Wallet := ⟨p, Val.vDict []⟩
      match w.list_wallets.res with
      | .error e => (.error e, r.2)
      | .ok _ => (.ok none, r.2)

/-- `post_create_wallet` (internals.py:72-78): evaluates `Wallet()` — no
arguments, so the defaults `mode='r'`, `wallet_label=None`,
`with_address=True` apply — and would return the instance; the handler
never touches the session wallet list. -/
def post_create_wallet (session_wallets : List Wallet) (genLabel : String) :
    List Wallet × (Except Err Wallet × List RpcCall) :=
  (session_wallets, Wallet.callInit none "r" none true genLabel)

/-- Lowercase hexadecimal digit, as `str(uuid4())` produces. -/
def isHexLower (c : Char) : Bool :=
  c.isDigit || c == 'a' || c == 'b' || c == 'c' || c == 'd' || c == 'e' || c == 'f'

/-- Syntactic validity of a UUID string: 36 characters in the 8-4-4-4-12
hyphenated layout, lowercase hexadecimal everywhere else — the shape of
every `str(uuid4())` result (the contract of the external `uuid`
collaborator). -/
def isValidUUID (s : String) : Bool :=
  s.length == 36 &&
  (s.toList.enum.all fun ic =>
    if ic.1 == 8 || ic.1 == 13 || ic.1 == 18 || ic.1 == 23 then ic.2 == '-'
    else isHexLower ic.2)

/-- A concrete node oracle used by the closed witness theorems. -/
def cNode : Node := fun c =>
  if c.method == "createwallet" then
    .ok (Val.vDict [("name", Val.vStr "w0"), ("warning", Val.vStr "")])
  else if c.method == "getnewaddress" then .ok (Val.vStr "ex1addr")
  else if c.method == "listwalletdir" then .ok (Val.vList [Val.vStr "w0"])
  else if c.method == "loadwallet" then .ok (Val.vDict [("name", Val.vStr "w0")])
  else .ok Val.vNull

/-- Session wallet with label `a`, created first. -/
def wA1 : Wallet := ⟨cNode, Val.vDict [("label", Val.vStr "a"), ("idx", Val.vNum 1)]⟩

/-- Session wallet with label `b`, created second. -/
def wB2 : Wallet := ⟨cNode, Val.vDict [("label", Val.vStr "b"), ("idx", Val.vNum 2)]⟩

/-- Session wallet with label `a`, created third (most recent). -/
def wA3 : Wallet := ⟨cNode, Val.vDict [("label", Val.vStr "a"), ("idx", Val.vNum 3)]⟩

/-- A syntactically valid UUID string standing in for `str(uuid4())`. -/
def uuidEx : String := "123e4567-e89b-42d3-a456-426614174000"

/-- C1: with an empty Session Registry, `_check_for_proxy` registers
exactly one default Service/Connection entry, and a subsequent
resolution returns that registered Connection — but the registering call
itself returns `None` instead of the newly registered Connection,
because the source lacks a `return` in front of the single retry
(internals.py:36), contradicting the claim and the function's own
docstring. -/
theorem check_for_proxy_empty_registry_bug :
    (_check_for_proxy cNode ⟨[]⟩).1 = none ∧
    (_check_for_proxy cNode ⟨[]⟩).2.active = [(⟨cNode⟩, cNode)] ∧
    (_check_for_proxy cNode ⟨[(⟨cNode⟩, cNode)]⟩).1 = some cNode := by
  refine ⟨?_, ?_, ?_⟩ <;> simp [_check_for_proxy, Service.get_proxy]

/-- C2: the stored metadata record matches the construction mode's
contract — mode `'r'` (reference) stores an empty record with no RPC
call; when mode `'c'` (create) succeeds, the wallet stores exactly the
node's creation-path response, which is non-empty whenever that response
is; when mode `'l'` (load) succeeds, the wallet stores exactly the
node's `loadwallet` response, likewise non-empty whenever the response
is; and any mode outside `{c, r, l}` raises `NotImplementedError`
immediately with no RPC call and no fallback. -/
theorem wallet_init_mode_contract (proxy : Node) (lbl : Option String)
    (wa : Bool) (gen : String) (mode : String) :
    Wallet.init proxy "r" lbl wa gen = (.ok ⟨proxy, Val.vDict []⟩, []) ∧
    (∀ v tr, Wallet._create_wallet proxy gen wa lbl = (.ok v, tr) →
      Wallet.init proxy "c" lbl wa gen = (.ok ⟨proxy, v⟩, tr) ∧
      (v ≠ Val.vDict [] → (⟨proxy, v⟩ : Wallet).wallet ≠ Val.vDict [])) ∧
    (∀ v tr, loadwallet_exec proxy (optStr lbl) = (.ok v, tr) →
      Wallet.init proxy "l" lbl wa gen = (.ok ⟨proxy, v⟩, tr) ∧
      (v ≠ Val.vDict [] → (⟨proxy, v⟩ : Wallet).wallet ≠ Val.vDict [])) ∧
    (mode ≠ "c" → mode ≠ "r" → mode ≠ "l" →
      Wallet.init proxy mode lbl wa gen =
        (.error (Err.notImplemented "Provide a valid Wallet mode!"), [])) := by
  refine ⟨rfl, ?_, ?_, ?_⟩
  · intro v tr h
    refine ⟨?_, fun hne => hne⟩
    unfold Wallet.init
    rw [if_pos rfl, h]
  · intro v tr h
    refine ⟨?_, fun hne => hne⟩
    unfold Wallet.init
    rw [if_neg (by decide), if_neg (by decide), if_pos rfl, h]
  · intro h1 h2 h3
    unfold Wallet.init
    rw [if_neg h1, if_neg h2, if_neg h3]

/-- C2 witness: the mode contract evaluated on a concrete node whose
`createwallet`, `getnewaddress` and `loadwallet` calls succeed, plus a
concrete unrecognized mode. -/
theorem wallet_init_mode_contract_witness :
    Wallet.init cNode "r" none true "g" = (.ok ⟨cNode, Val.vDict []⟩, []) ∧
    Wallet.init cNode "c" none true "g" =
      (.ok ⟨cNode, Val.vStr "ex1addr"⟩,
       [⟨"createwallet", [Val.vStr "g", Val.vBool false, Val.vBool false]⟩,
        ⟨"getnewaddress", []⟩]) ∧
    (⟨cNode, Val.vStr "ex1addr"⟩ : Wallet).wallet ≠ Val.vDict [] ∧
    Wallet.init cNode "l" (some "w0") true "g" =
      (.ok ⟨cNode, Val.vDict [("name", Val.vStr "w0")]⟩,
       [⟨"loadwallet", [Val.vStr "w0"]⟩]) ∧
    Wallet.init cNode "x" none true "g" =
      (.error (Err.notImplemented "Provide a valid Wallet mode!"), []) := by
  have h := wallet_init_mode_contract cNode none true "g" "x"
  have hl := wallet_init_mode_contract cNode (some "w0") true "g" "x"
  exact ⟨h.1,
         (h.2.1 (Val.vStr "ex1addr") _ rfl).1,
         (h.2.1 (Val.vStr "ex1addr") _ rfl).2 (by simp),
         (hl.2.2.1 (Val.vDict [("name", Val.vStr "w0")]) _ rfl).1,
         h.2.2.2 (by decide) (by decide) (by decide)⟩

/-- C3: constructing a Wallet in create mode with no label and an
address requested issues exactly `createwallet(<generated-label>, False,
False)` followed by `getnewaddress()`, in that order, where the
generated label is the `str(uuid4())` value (assumed syntactically a
valid UUID, the external uuid collaborator's contract), and stores the
`getnewaddress` result as metadata; with no address requested only the
`createwallet` call is issued and its raw result is stored. -/
theorem create_wallet_rpc_trace (proxy : Node) (gen : String)
    (huuid : isValidUUID gen = true) (v1 v2 : Val)
    (h1 : proxy ⟨"createwallet", [Val.vStr gen, Val.vBool false, Val.vBool false]⟩ = .ok v1)
    (h2 : proxy ⟨"getnewaddress", []⟩ = .ok v2) :
    Wallet.init proxy "c" none true gen =
      (.ok ⟨proxy, v2⟩,
       [⟨"createwallet", [Val.vStr gen, Val.vBool false, Val.vBool false]⟩,
        ⟨"getnewaddress", []⟩]) ∧
    Wallet.init proxy "c" none false gen =
      (.ok ⟨proxy, v1⟩,
       [⟨"createwallet", [Val.vStr gen, Val.vBool false, Val.vBool false]⟩]) ∧
    isValidUUID gen = true := by
  refine ⟨?_, ?_, huuid⟩ <;>
    simp [Wallet.init, Wallet._create_wallet, Wallet._wrapper_executor,
          rpc_exec, wrapper_body, h1, h2]

/-- C3 witness: the create-mode trace on a concrete node and a concrete
syntactically valid UUID label. -/
theorem create_wallet_rpc_trace_witness :
    isValidUUID uuidEx = true ∧
    Wallet.init cNode "c" none true uuidEx =
      (.ok ⟨cNode, Val.vStr "ex1addr"⟩,
       [⟨"createwallet", [Val.vStr uuidEx, Val.vBool false, Val.vBool false]⟩,
        ⟨"getnewaddress", []⟩]) ∧
    Wallet.init cNode "c" none false uuidEx =
      (.ok ⟨cNode, Val.vDict [("name", Val.vStr "w0"), ("warning", Val.vStr "")]⟩,
       [⟨"createwallet", [Val.vStr uuidEx, Val.vBool false, Val.vBool false]⟩]) := by
  have h := create_wallet_rpc_trace cNode uuidEx (by decide)
    (Val.vDict [("name", Val.vStr "w0"), ("warning", Val.vStr "")])
    (Val.vStr "ex1addr") rfl rfl
  exact ⟨h.2.2, h.1, h.2.1⟩

/-- C4: wallet lookup-by-label filters the session wallets by exact
string equality on the metadata field `label` and returns the metadata
of the last (most recently created) match; a non-empty session with no
match raises the label-not-found `TypeError`, an empty session raises
the distinct no-wallets-loaded `RuntimeError`, and the two failure
conditions are different values. -/
theorem labeled_wallet_lookup (ws : List Wallet) (lbl : String) :
    get_labeled_wallet [] lbl = .error noWalletsLoadedErr ∧
    (∀ w rest, ws = w :: rest → target_wallet ws lbl = .ok [] →
      get_labeled_wallet ws lbl = .error labelNotFoundErr) ∧
    (∀ ms m, target_wallet ws lbl = .ok ms → ms.getLast? = some m →
      get_labeled_wallet ws lbl = .ok m.wallet) ∧
    noWalletsLoadedErr ≠ labelNotFoundErr := by
  refine ⟨rfl, ?_, ?_, by simp [noWalletsLoadedErr, labelNotFoundErr]⟩
  · intro w rest hws h
    subst hws
    simp [get_labeled_wallet, h]
  · intro ms m hms hlast
    cases ws with
    | nil =>
      simp [target_wallet] at hms
      subst hms
      simp at hlast
    | cons w rest =>
      cases ms with
      | nil => simp at hlast
      | cons t ts =>
        rw [List.getLast?_eq_getLast (t :: ts) (List.cons_ne_nil t ts)] at hlast
        injection hlast with hlast
        simp [get_labeled_wallet, hms, hlast]

/-- C4 witness: for session labels `a`, `b`, `a` the lookup of `a`
returns the metadata of the third (most recent) wallet, the lookup of
`c` fails with label-not-found, the empty-session lookup fails with the
distinct no-wallets-loaded error. -/
theorem labeled_wallet_lookup_witness :
    get_labeled_wallet [wA1, wB2, wA3] "a" = .ok wA3.wallet ∧
    get_labeled_wallet [wA1, wB2, wA3] "c" = .error labelNotFoundErr ∧
    get_labeled_wallet [] "a" = .error noWalletsLoadedErr ∧
    noWalletsLoadedErr ≠ labelNotFoundErr := by
  have h1 := labeled_wallet_lookup [wA1, wB2, wA3] "a"
  have h2 := labeled_wallet_lookup [wA1, wB2, wA3] "c"
  have h3 := labeled_wallet_lookup ([] : List Wallet) "a"
  exact ⟨h1.2.2.1 [wA1, wA3] wA3 rfl rfl,
         h2.2.1 wA1 [wB2, wA3] rfl rfl,
         h3.1, h1.2.2.2⟩

/-- C5: the RPC Call Executor forwards the positional arguments to the
named operation in the given order with no modification — the
`rpc_exec`-nested tuple is unnested back to exactly the original list —
and the node's decoded result is returned to the caller unchanged;
`send_to_address` instantiates this with `sendtoaddress(address,
amount)`. -/
theorem wrapper_executor_forwards (node : Node) (m : String) (args : List Val)
    (w : Wallet) (addr : String) (amt : ℚ) :
    Wallet._wrapper_executor node m args = (node ⟨m, args⟩, [⟨m, args⟩]) ∧
    (w.send_to_address addr amt).res =
      w.proxy ⟨"sendtoaddress", [Val.vStr addr, Val.vNum amt]⟩ ∧
    (w.send_to_address addr amt).calls =
      [⟨"sendtoaddress", [Val.vStr addr, Val.vNum amt]⟩] := by
  exact ⟨rfl, rfl, rfl⟩

/-- C6 counterexample: issuing with amounts given as the strings
`"10"`, `"5"` and issuing with the decimal numbers `10.0`, `5.0` do NOT
send the same RPC argument values to `issueasset` — `issue_token`
forwards the inputs without any parsing, so the string form stays a
string. -/
theorem issue_token_string_vs_number :
    (Pool.issue_token (Pool.init wA1) (Val.vStr "10") (Val.vStr "5")).calls ≠
    (Pool.issue_token (Pool.init wA1) (Val.vNum 10) (Val.vNum 5)).calls := by
  simp [Pool.issue_token, Pool.init, Wallet._wrapper_executor, rpc_exec, wrapper_body]

/-- C6 amended: `issue_token` forwards both amounts to `issueasset`
exactly as supplied, with no parsing or normalization, so the
string-form and the numerically equal decimal-form invocations produce
different (not identical) RPC argument values. -/
theorem issue_token_forwards_amounts (p : Pool) (amount reissue : Val) :
    (Pool.issue_token p amount reissue).calls = [⟨"issueasset", [amount, reissue]⟩] ∧
    (Pool.issue_token p amount reissue).res =
      p.vault_wallet.proxy ⟨"issueasset", [amount, reissue]⟩ ∧
    (Pool.issue_token p (Val.vStr "10") (Val.vStr "5")).calls ≠
      (Pool.issue_token p (Val.vNum 10) (Val.vNum 5)).calls := by
  refine ⟨rfl, rfl, ?_⟩
  simp [Pool.issue_token, Wallet._wrapper_executor, rpc_exec, wrapper_body]

/-- C7: evaluation showing the code-level divergence: with a session
wallet available, `get_wallet` evaluates `list_wallets()` — whose result
is the node's `listwalletdir` wallet-descriptor list — but never returns
it (the source lacks a `return` at internals.py:50), so the request
operation's own value is `None` rather than the descriptor list the
claim describes. -/
theorem get_wallet_discards_result :
    get_wallet [wA1] ⟨[]⟩ cNode = (.ok none, ⟨[]⟩) ∧
    wA1.list_wallets.res = .ok (Val.vList [Val.vStr "w0"]) := by
  exact ⟨rfl, rfl⟩

/-- C8: every Wallet operation after construction leaves the Wallet
object's local state — its metadata record and its Connection
reference — unchanged, for every node behaviour (success and failure
alike): the post-state of each of the eight methods equals the input
state. -/
theorem wallet_ops_preserve_state (w : Wallet) (name : Val) (addr : String) (amt : ℚ) :
    w.list_wallets.post = w ∧
    (w.load_wallet name).post = w ∧
    w.get_balance.post = w ∧
    w.get_address.post = w ∧
    w.get_private_key.post = w ∧
    w.get_public_key.post = w ∧
    w.get_wallet_info.post = w ∧
    (w.send_to_address addr amt).post = w := by
  exact ⟨rfl, rfl, rfl, rfl, rfl, rfl, rfl, rfl⟩

/-- C9: a Pool's owning wallet is exactly the Wallet supplied at
construction (returned unchanged by the `vaul_wallet` getter), and
`issue_token` — the only other operation — leaves the Pool state
unchanged and dispatches through that same owning wallet's proxy. -/
theorem pool_owner_fixed (w : Wallet) (p : Pool) (amount reissue : Val) :
    (Pool.init w).vaul_wallet = w ∧
    (Pool.issue_token p amount reissue).post = p ∧
    (Pool.issue_token p amount reissue).post.vault_wallet = p.vault_wallet ∧
    (Pool.issue_token p amount reissue).res =
      p.vault_wallet.proxy ⟨"issueasset", [amount, reissue]⟩ := by
  exact ⟨rfl, rfl, rfl, rfl⟩

/-- C10: the create-wallet request operation constructs `Wallet()`
without the required `proxy_service` argument, so it always fails with a
`TypeError` before any node interaction — the RPC trace is empty — and
the session wallet list is left untouched, for every session state. -/
theorem post_create_wallet_always_fails (session : List Wallet) (gen : String) :
    (post_create_wallet session gen).1 = session ∧
    (post_create_wallet session gen).2.2 = [] ∧
    (post_create_wallet session gen).2.1 =
      .error (Err.typeErr "__init__ missing 1 required positional argument: proxy_service") := by
  exact ⟨rfl, rfl, rfl⟩
